import Mathlib

/-!
Shallow embedding of the filehost web service's authentication core
(`app.py`, `internals/database.py`, `internals/models/user.py`) and the
file-retrieval path (`internals/database.py::getFileByToken`,
`app.py::_files_get`).

External collaborators are modelled abstractly:
* password hashing / verification (`passlib pbkdf2_sha512`) as abstract
  functions `hashPw : String → String` and `pwVerify : String → String → Bool`;
* TOTP code generation (`pyotp`) as an abstract code generator
  `gen : String → Int → String` mapping (secret, time-step counter) to the
  code for that step; `pyotp.TOTP(secret).verify(code, valid_window=w)` at
  current step `t` is then `totpVerify gen secret code t w`;
* the SQL store as an in-memory list of rows.

Flask sessions are modelled as a record of the three keys the application
uses (`"id"`, `"2fa"`, `"2faKey"`), each optional; request forms as
association lists of string key/value pairs.
-/

namespace Filehost

/-- A row of the `users` table, as constructed by
`internals/models/user.py::User.__init__` (the derived booleans
`banned`/`moderator`/`admin` are functions of `accessLevel` below).
`lastOtp` is stored as a string: `Database.setUserLastOtp` writes the
string `code` argument into the `last_otp` column. -/
structure User where
  id : Nat
  email : String
  password : String
  username : String
  accessLevel : Int
  otpKey : String
  lastOtp : String
  deriving Repr, DecidableEq

/-- Source: `self.banned = accessLevel == -1` in `User.__init__`. -/
def User.banned (u : User) : Bool := u.accessLevel == -1

/-- Source: `self.moderator = accessLevel == 1` in `User.__init__`. -/
def User.moderator (u : User) : Bool := u.accessLevel == 1

/-- Source: `self.admin = accessLevel == 2` in `User.__init__`. -/
def User.admin (u : User) : Bool := u.accessLevel == 2

/-- The Flask session bag, restricted to the three keys the application
reads or writes: `"id"`, `"2fa"` and `"2faKey"` (the pending OTP key held
during enrollment). `none` means the key is absent from the session. -/
structure Session where
  id : Option Nat
  twoFA : Option Bool
  pendingOtpKey : Option String
  deriving Repr, DecidableEq

/-- The empty session (`session.clear()` result / first contact). -/
def Session.empty : Session := ⟨none, none, none⟩

/-- Models `len(session)`: the number of keys present. -/
def sessionLen (s : Session) : Nat :=
  (if s.id.isSome then 1 else 0) + (if s.twoFA.isSome then 1 else 0) +
    (if s.pendingOtpKey.isSome then 1 else 0)

/-- Embeds `app.py::_cookieCheck`: `"None"` for an empty session,
`"Valid"` otherwise. -/
def cookieCheck (s : Session) : String :=
  if sessionLen s == 0 then "None" else "Valid"

/-- Embeds `app.py::_canAdd2fa`: `"2fa" not in data or not data["2fa"]`. -/
def canAdd2fa (s : Session) : Bool :=
  match s.twoFA with
  | none => true
  | some b => !b

/-- Form lookup `form[field]`, `none` when the field is absent. -/
def lookupForm (form : List (String × String)) (field : String) : Option String :=
  (form.find? (fun kv => kv.1 == field)).map (fun kv => kv.2)

/-- Loop body of `app.py::_verifyForm`: walk the field list with its index,
failing at the first field that is absent or empty. -/
def verifyFormGo (form : List (String × String)) :
    List String → Nat → Bool × String × Nat
  | [], _ => (true, "", 0)
  | field :: rest, n =>
    match lookupForm form field with
    | none => (false, "Missing field: " ++ field, n)
    | some v =>
      if v == "" then (false, "Missing field: " ++ field, n)
      else verifyFormGo form rest (n + 1)

/-- Embeds `app.py::_verifyForm`. -/
def verifyForm (form : List (String × String)) (fields : List String) :
    Bool × String × Nat :=
  verifyFormGo form fields 0

/-- Model of `pyotp.TOTP(secret).verify(code, valid_window=window)` evaluated
at time-step counter `t`, with `gen` the abstract TOTP code generator:
the code is accepted iff it equals the generated code at some step within
`±window` of `t`. `valid_window` defaults to `0` in pyotp. -/
def totpVerify (gen : String → Int → String) (secret code : String)
    (t : Int) (window : Nat) : Bool :=
  (List.range (2 * window + 1)).any
    (fun i => gen secret (t - (window : Int) + (i : Int)) == code)

/-! ## User Directory (`internals/database.py`) -/

/-- Embeds `Database.getUser`: `SELECT * FROM users WHERE id = %s` +
`fetchone` (first matching row, `none` when there is none). -/
def getUser (db : List User) (i : Nat) : Option User :=
  db.find? (fun u => u.id == i)

/-- Embeds `Database.checkUserExists`. -/
def checkUserExists (db : List User) (i : Nat) : Bool :=
  (db.find? (fun u => u.id == i)).isSome

/-- Embeds `Database.getUserByEmail`. -/
def getUserByEmail (db : List User) (e : String) : Option User :=
  db.find? (fun u => u.email == e)

/-- Embeds `Database.setUserLastOtp`:
`UPDATE users SET last_otp = %s WHERE id = %s`. -/
def setUserLastOtp (db : List User) (i : Nat) (code : String) : List User :=
  db.map (fun u => if u.id == i then { u with lastOtp := code } else u)

/-- Embeds `Database.setUserOtpKey`:
`UPDATE users SET otp = %s WHERE id = %s`. -/
def setUserOtpKey (db : List User) (i : Nat) (key : String) : List User :=
  db.map (fun u => if u.id == i then { u with otpKey := key } else u)

/-- Embeds `Database.addUser`: hash the password, discard the plaintext,
insert the row and return the store-generated id (`newId` models the
`RETURNING id` value; unspecified columns take their defaults: access
level 0, empty `otp` and `last_otp`). -/
def addUser (hashPw : String → String) (db : List User) (newId : Nat)
    (username plaintextPassword email : String) : List User × Nat :=
  (db ++ [{ id := newId, email := email, password := hashPw plaintextPassword,
            username := username, accessLevel := 0, otpKey := "", lastOtp := "" }],
   newId)

/-! ## Session Gate (`app.py::_before_request`) -/

/-- Outcome of the pre-request gate: let the request proceed, or
short-circuit with a redirect to an endpoint (optionally carrying a
`condition` query value, as in `url_for("auth._auth_logout", condition="Banned")`). -/
inductive GateResult where
  | proceed
  | redirect (endpoint : String) (condition : Option String)
  deriving Repr, DecidableEq

/-- Embeds `app.py::_before_request` (the logging calls are pure noise and
omitted). Returns the session as left by the gate together with the gate's
decision. The inner `getUser` `none` branch is unreachable: the first
condition already required `checkUserExists`. -/
def before_request (db : List User) (endpoint : String) (s : Session) :
    Session × GateResult :=
  if endpoint == "static" then (s, GateResult.proceed)
  else if sessionLen s == 0 || s.id.isNone || !checkUserExists db (s.id.getD 0) then
    (Session.empty, GateResult.proceed)
  else if s.twoFA.isNone then
    ({ s with twoFA := some false }, GateResult.redirect "auth._auth_add_2fa" none)
  else
    match getUser db (s.id.getD 0) with
    | none => (Session.empty, GateResult.proceed)
    | some user =>
      if user.banned then
        (Session.empty, GateResult.redirect "auth._auth_logout" (some "Banned"))
      else if user.otpKey == "" then
        ({ s with twoFA := some false },
         if endpoint != "auth._auth_add_2fa" then
           GateResult.redirect "auth._auth_add_2fa" none
         else GateResult.proceed)
      else (s, GateResult.proceed)

/-! ## Auth Flows (`app.py`), POST branches -/

/-- Response of the login handler: re-render `auth/login.html` (with an
optional error), redirect to the index, redirect to 2FA enrollment, or the
HTTP 400 Flask raises when `request.form["2fa"]` is subscripted while the
field is absent. -/
inductive LoginResult where
  | render (error : Option String)
  | redirectIndex
  | redirect2fa
  | badRequest
  deriving Repr, DecidableEq

/-- Embeds the POST branch of `app.py::_auth_login`.
`pwVerify` models `passlib.hash.pbkdf2_sha512.verify` (`User.checkPassword`);
`gen`/`t` feed the pyotp model `totpVerify`. `user.otp.verify(code)` is
called with pyotp's default `valid_window=0`. Returns the session as left
by the handler and its response. -/
def auth_login_post (pwVerify : String → String → Bool)
    (gen : String → Int → String) (t : Int) (db : List User) (s : Session)
    (form : List (String × String)) : Session × LoginResult :=
  if cookieCheck s == "Valid" then (s, LoginResult.redirectIndex)
  else
    let fr := verifyForm form ["email", "password", "2fa"]
    if !fr.1 && fr.2.2 != 2 then (s, LoginResult.render (some fr.2.1))
    else
      match getUserByEmail db ((lookupForm form "email").getD "") with
      | none => (s, LoginResult.render (some "Invalid Email"))
      | some user =>
        if user.otpKey == "" && fr.2.2 == 2 then
          ({ s with id := some user.id, twoFA := some false },
           LoginResult.redirect2fa)
        else if !pwVerify ((lookupForm form "password").getD "") user.password then
          (s, LoginResult.render (some "Invalid Password"))
        else if user.banned then (s, LoginResult.render (some "Banned"))
        else
          match lookupForm form "2fa" with
          | none => (s, LoginResult.badRequest)
          | some code =>
            if !totpVerify gen user.otpKey code t 0 || user.lastOtp == code then
              (s, LoginResult.render (some "Invalid 2FA"))
            else
              ({ s with id := some user.id, twoFA := some true },
               LoginResult.redirectIndex)

/-- Response of the registration handler. `serverError` is the HTTP 500
produced when the handler raises; `crash` marks the unreachable `user.id`
dereference after `getUserByEmail` on the freshly inserted row. -/
inductive RegisterResult where
  | render (error : Option String)
  | redirectIndex
  | redirect2fa
  | serverError (msg : String)
  | crash
  deriving Repr, DecidableEq

/-- Embeds the POST branch of `app.py::_auth_register`. On a password
mismatch the handler executes `del request.form["password"]` before its
`return renderTemplate(..., error="Passwords do not match")`; Flask's
`request.form` is a werkzeug `ImmutableMultiDict`, whose `__delitem__`
raises `TypeError`, so the mismatch branch raises before reaching the
render and surfaces as an HTTP 500 — modelled as `serverError`. Returns
the user table, the session and the response. -/
def auth_register_post (hashPw : String → String) (db : List User)
    (s : Session) (form : List (String × String)) (newId : Nat) :
    List User × Session × RegisterResult :=
  if cookieCheck s == "Valid" then (db, s, RegisterResult.redirectIndex)
  else
    let fr := verifyForm form ["email", "password", "confirm-password", "username"]
    if !fr.1 then (db, s, RegisterResult.render (some fr.2.1))
    else if (lookupForm form "password").getD "" !=
        (lookupForm form "confirm-password").getD "" then
      (db, s, RegisterResult.serverError "TypeError: ImmutableMultiDict objects are immutable")
    else if (getUserByEmail db ((lookupForm form "email").getD "")).isSome then
      (db, s, RegisterResult.render (some "Email already in use"))
    else
      let db2 := (addUser hashPw db newId ((lookupForm form "username").getD "")
        ((lookupForm form "password").getD "") ((lookupForm form "email").getD "")).1
      match getUserByEmail db2 ((lookupForm form "email").getD "") with
      | none => (db2, s, RegisterResult.crash)
      | some user =>
        (db2, { s with id := some user.id }, RegisterResult.redirect2fa)

/-- Response of the 2FA-enrollment POST handler. `keyError` marks the
`KeyError` raised when `session["2faKey"]` or `session["id"]` is
subscripted while absent. -/
inductive TfaResult where
  | redirectLogin
  | render (error : Option String)
  | redirectIndex
  | keyError
  deriving Repr, DecidableEq

/-- Embeds the POST branch of `app.py::_auth_add_2fa`. `debug` is
`app.debug`. The verification guard is transcribed exactly as written in
the source:
`(not TOTP(session["2faKey"]).verify(form["2fa"], valid_window=1)) and (app.debug and form["2fa"] != "123456")`.
On the non-reject path the pending key is persisted via `setUserOtpKey`,
`session["2fa"]` is set to `True` and `"2faKey"` is popped. -/
def auth_add_2fa_post (gen : String → Int → String) (t : Int) (debug : Bool)
    (db : List User) (s : Session) (form : List (String × String)) :
    List User × Session × TfaResult :=
  if !canAdd2fa s then (db, s, TfaResult.redirectLogin)
  else
    let fr := verifyForm form ["2fa"]
    if !fr.1 then (db, s, TfaResult.render (some fr.2.1))
    else
      match s.pendingOtpKey, lookupForm form "2fa" with
      | some key, some code =>
        if !totpVerify gen key code t 1 && (debug && code != "123456") then
          (db, s, TfaResult.render (some "Invalid 2FA"))
        else
          match s.id with
          | none => (db, s, TfaResult.keyError)
          | some uid =>
            (setUserOtpKey db uid key,
             { s with twoFA := some true, pendingOtpKey := none },
             TfaResult.redirectIndex)
      | _, _ => (db, s, TfaResult.keyError)

/-- Response of the password-reset-request POST handler. `noResponse`
marks the fall-through at the end of the success path: the handler body
ends without a `return` statement. -/
inductive ResetResult where
  | render (error : Option String)
  | redirectIndex
  | noResponse
  deriving Repr, DecidableEq

/-- Embeds the POST branch of `app.py::_auth_password_reset`. `code` models
the freshly generated `pyotp.random_base32()` value. The returned `Bool`
records whether `sendVerificationEmail` was invoked: the call
`emailer.sendVerificationEmail(user.email, code)` is commented out in the
source, so it is `false` on every path. -/
def auth_password_reset_post (db : List User) (s : Session)
    (form : List (String × String)) (code : String) :
    List User × Bool × ResetResult :=
  if cookieCheck s == "Valid" then (db, false, ResetResult.redirectIndex)
  else
    let fr := verifyForm form ["email"]
    if !fr.1 then (db, false, ResetResult.render (some fr.2.1))
    else
      match getUserByEmail db ((lookupForm form "email").getD "") with
      | none => (db, false, ResetResult.render (some "Invalid Email"))
      | some user =>
        (setUserLastOtp db user.id code, false, ResetResult.noResponse)

/-! ## File retrieval (`internals/database.py::getFileByToken`,
`app.py::_files_get`) -/

/-- A row of the `files` table, restricted to the columns
`Database.getFileByToken` reads: `result[0]` (the file id), the `token`
column matched by `WHERE token = %s`, `result[3]` (passed to `getUser`)
and `result[5]` (`1` selects `small_files`, anything else `large_files`). -/
structure FileRow where
  id : Nat
  token : String
  authorRef : Nat
  sizeFlag : Int
  deriving Repr, DecidableEq

/-- The `File` object assembled at the end of `getFileByToken`. -/
structure FileData where
  row : FileRow
  data : String
  author : Option User
  deriving Repr, DecidableEq

/-- Embeds `Database.getFileByToken`. `files` is the `files` table,
`small`/`large` the `small_files`/`large_files` tables as (id, data) rows.
The source subscripts the `fetchone()` result (`result[3]`, for the
author lookup) *before* the trailing `if result else None` guard, so a
token with no matching row raises a `TypeError` — modelled as
`Except.error` — and the `Except.ok none` value is never produced.
The inner data fetch likewise subscripts `cursor.fetchone()[0]` without a
guard. -/
def getFileByToken (db : List User) (files : List FileRow)
    (small large : List (Nat × String)) (token : String) :
    Except String (Option FileData) :=
  match files.find? (fun r => r.token == token) with
  | none => Except.error "TypeError: NoneType object is not subscriptable"
  | some row =>
    let author := getUser db row.authorRef
    match (if row.sizeFlag == 1 then small else large).find?
        (fun d => d.1 == row.id) with
    | none => Except.error "TypeError: NoneType object is not subscriptable"
    | some d => Except.ok (some { row := row, data := d.2, author := author })

/-- Response of the file-retrieval route `_files_get`. `serverError` is
the HTTP 500 produced when the lookup raises. -/
inductive FilesGetResult where
  | redirectLogin
  | renderNotFound
  | renderFile (f : FileData)
  | serverError (msg : String)
  deriving Repr, DecidableEq

/-- Embeds `app.py::_files_get`: cookie check, then `getFileByToken`; a
`None` result would render `files/file.html` with `error="File not found"`. -/
def files_get (db : List User) (files : List FileRow)
    (small large : List (Nat × String)) (s : Session) (token : String) :
    FilesGetResult :=
  if cookieCheck s == "None" then FilesGetResult.redirectLogin
  else
    match getFileByToken db files small large token with
    | Except.error e => FilesGetResult.serverError e
    | Except.ok none => FilesGetResult.renderNotFound
    | Except.ok (some f) => FilesGetResult.renderFile f

/-! ## Auxiliary lemmas -/

/-- Bridge lemma: `checkUserExists` agrees with `getUser` being `some`. -/
theorem checkUserExists_eq_getUser_isSome (db : List User) (i : Nat) :
    checkUserExists db i = (getUser db i).isSome := rfl

/-! ## Claims -/

/-- C3: in the login flow, for every user with a configured `otpKey`, a
submitted one-time code equal to the user's stored `lastOtp` is rejected
with `Invalid 2FA` (session unchanged), regardless of whether the code
would validate against the current time step: the replay disjunct
`user.lastOtp == request.form["2fa"]` fires independently of
`user.otp.verify`. -/
theorem login_rejects_replayed_otp
    (pwVerify : String → String → Bool) (gen : String → Int → String) (t : Int)
    (db : List User) (s : Session) (form : List (String × String)) (u : User)
    (e p code : String)
    (hs : cookieCheck s = "None")
    (he : lookupForm form "email" = some e) (he0 : e ≠ "")
    (hp : lookupForm form "password" = some p) (hp0 : p ≠ "")
    (hc : lookupForm form "2fa" = some code) (hc0 : code ≠ "")
    (hu : getUserByEmail db e = some u)
    (hotp : u.otpKey ≠ "")
    (hpw : pwVerify p u.password = true)
    (hban : u.banned = false)
    (hreplay : u.lastOtp = code) :
    auth_login_post pwVerify gen t db s form =
      (s, LoginResult.render (some "Invalid 2FA")) := by
  have hs' : (cookieCheck s == "Valid") = false := by rw [hs]; rfl
  have hotp' : (u.otpKey == "") = false := beq_eq_false_iff_ne.mpr hotp
  unfold auth_login_post
  simp only [hs', Bool.false_eq_true, if_false, verifyForm, verifyFormGo, he, hp, hc,
    beq_iff_eq, he0, hp0, hc0, if_neg, hu, hotp', Bool.false_and, hpw, hban, hreplay,
    Bool.not_true, Bool.false_eq_true, Option.getD_some, beq_self_eq_true, Bool.or_true,
    if_true]

/-- Witness for C3 at a concrete input: the stored `lastOtp` equals the
submitted code, which is also the currently valid TOTP code, yet login is
rejected. -/
theorem login_rejects_replayed_otp_witness :
    auth_login_post (fun p h => p == h) (fun _ _ => "222222") 5
      [⟨1, "a@b.c", "pw", "alice", 0, "SECRET", "222222"⟩] Session.empty
      [("email", "a@b.c"), ("password", "pw"), ("2fa", "222222")] =
      (Session.empty, LoginResult.render (some "Invalid 2FA")) :=
  login_rejects_replayed_otp (fun p h => p == h) (fun _ _ => "222222") 5
    [⟨1, "a@b.c", "pw", "alice", 0, "SECRET", "222222"⟩] Session.empty
    [("email", "a@b.c"), ("password", "pw"), ("2fa", "222222")]
    ⟨1, "a@b.c", "pw", "alice", 0, "SECRET", "222222"⟩ "a@b.c" "pw" "222222"
    rfl rfl (by decide) rfl (by decide) rfl (by decide) rfl (by decide) rfl rfl rfl

/-- C2 counterexample: a banned user whose session lacks the `"2fa"` flag.
The gate's flag-absent check (`"2fa" not in session`) runs *before* the
user lookup and banned check, so the request is redirected to 2FA
enrollment with the flag set to `false` — not to the logout endpoint with
reason `"Banned"` and a cleared session, as the claim requires. -/
theorem gate_banned_flag_absent_counterexample :
    before_request [⟨1, "a@b.c", "HASH", "alice", -1, "SECRET", "999999"⟩]
        "info._info_index" ⟨some 1, none, none⟩ =
      (⟨some 1, some false, none⟩, GateResult.redirect "auth._auth_add_2fa" none) ∧
    before_request [⟨1, "a@b.c", "HASH", "alice", -1, "SECRET", "999999"⟩]
        "info._info_index" ⟨some 1, none, none⟩ ≠
      (Session.empty, GateResult.redirect "auth._auth_logout" (some "Banned")) := by
  decide

/-- C2 (amended): the flag-absent check precedes the banned check, so the
banned short-circuit applies only once the `"2fa"` flag is present in the
session: for every request (other than for static assets) whose session id
references an existing banned user and whose session carries the
`twoFactorVerified` flag, the gate clears the session and redirects to the
logout endpoint with reason `"Banned"`. -/
theorem gate_banned_redirects_logout
    (db : List User) (endpoint : String) (s : Session) (uid : Nat) (u : User)
    (b : Bool)
    (hep : endpoint ≠ "static")
    (hid : s.id = some uid)
    (hfa : s.twoFA = some b)
    (hu : getUser db uid = some u)
    (hban : u.banned = true) :
    before_request db endpoint s =
      (Session.empty, GateResult.redirect "auth._auth_logout" (some "Banned")) := by
  have hep' : (endpoint == "static") = false := beq_eq_false_iff_ne.mpr hep
  have hlen : (sessionLen s == 0) = false := by
    simp only [sessionLen, hid, Option.isSome_some, if_true, beq_eq_false_iff_ne]
    omega
  unfold before_request
  simp only [hep', Bool.false_eq_true, if_false, hlen, hid, Option.isNone_some,
    checkUserExists_eq_getUser_isSome, Option.getD_some, hu, Option.isSome_some,
    Bool.not_true, Bool.or_false, Bool.false_or, Option.isNone_none, hfa, hban,
    if_true]

/-- Witness for C2's amended theorem: a banned user with the flag present
is logged out with reason `"Banned"` and a cleared session. -/
theorem gate_banned_redirects_logout_witness :
    before_request [⟨1, "a@b.c", "HASH", "alice", -1, "SECRET", "999999"⟩]
        "info._info_index" ⟨some 1, some true, none⟩ =
      (Session.empty, GateResult.redirect "auth._auth_logout" (some "Banned")) :=
  gate_banned_redirects_logout
    [⟨1, "a@b.c", "HASH", "alice", -1, "SECRET", "999999"⟩] "info._info_index"
    ⟨some 1, some true, none⟩ 1 ⟨1, "a@b.c", "HASH", "alice", -1, "SECRET", "999999"⟩
    true (by decide) rfl rfl rfl rfl

/-- C5: for every session with `id` set, the `"2fa"` flag present,
referencing an existing non-banned user whose `otpKey` is empty, the gate
forces the flag to `false` and redirects to the enrollment endpoint —
except when the request already targets the enrollment endpoint, in which
case the request proceeds (still with the flag forced to `false`); in no
case does the gate let the session through as authenticated. -/
theorem gate_empty_otp_forces_enrollment
    (db : List User) (endpoint : String) (s : Session) (uid : Nat) (u : User)
    (b : Bool)
    (hep : endpoint ≠ "static")
    (hid : s.id = some uid)
    (hfa : s.twoFA = some b)
    (hu : getUser db uid = some u)
    (hban : u.banned = false)
    (hotp : u.otpKey = "") :
    before_request db endpoint s =
      ({ s with twoFA := some false },
       if endpoint == "auth._auth_add_2fa" then GateResult.proceed
       else GateResult.redirect "auth._auth_add_2fa" none) := by
  have hep' : (endpoint == "static") = false := beq_eq_false_iff_ne.mpr hep
  have hlen : (sessionLen s == 0) = false := by
    simp only [sessionLen, hid, Option.isSome_some, if_true, beq_eq_false_iff_ne]
    omega
  unfold before_request
  simp only [hep', Bool.false_eq_true, if_false, hlen, hid, Option.isNone_some,
    checkUserExists_eq_getUser_isSome, Option.getD_some, hu, Option.isSome_some,
    Bool.not_true, Bool.or_false, Bool.false_or, Option.isNone_none, hfa, hban,
    hotp, beq_self_eq_true, if_true, bne]
  by_cases hcmp : (endpoint == "auth._auth_add_2fa") = true
  · simp [hcmp]
  · rw [Bool.not_eq_true] at hcmp; simp [hcmp]

/-- Witness for C5: empty `otpKey`, flag present, request to the index →
forced flag and redirect to enrollment. -/
theorem gate_empty_otp_forces_enrollment_witness :
    before_request [⟨1, "a@b.c", "HASH", "alice", 0, "", ""⟩]
        "info._info_index" ⟨some 1, some true, none⟩ =
      (⟨some 1, some false, none⟩, GateResult.redirect "auth._auth_add_2fa" none) :=
  (gate_empty_otp_forces_enrollment
    [⟨1, "a@b.c", "HASH", "alice", 0, "", ""⟩] "info._info_index"
    ⟨some 1, some true, none⟩ 1 ⟨1, "a@b.c", "HASH", "alice", 0, "", ""⟩ true
    (by decide) rfl rfl rfl rfl rfl).trans (by decide)

/-- C6 counterexample: first login of a user without `otpKey` and with no
one-time-code field submitted. The handler executes `session["2fa"] = False`,
so `twoFactorVerified` is present (with value `false`) in the resulting
session — not absent, as the claim states. (The password is indeed not
checked: `pwVerify` is the constantly-false function here, yet the login
still sets the session id.) -/
theorem login_first_login_counterexample :
    auth_login_post (fun _ _ => false) (fun _ _ => "222222") 0
        [⟨1, "a@b.c", "HASH", "alice", 0, "", ""⟩] Session.empty
        [("email", "a@b.c"), ("password", "pw")] =
      (⟨some 1, some false, none⟩, LoginResult.redirect2fa) ∧
    (auth_login_post (fun _ _ => false) (fun _ _ => "222222") 0
        [⟨1, "a@b.c", "HASH", "alice", 0, "", ""⟩] Session.empty
        [("email", "a@b.c"), ("password", "pw")]).1.twoFA ≠ none := by
  decide

/-- C6 (amended): for every user with no `otpKey` configured and no
one-time-code field submitted (absent or empty), the login POST sets `id`
on the session, sets `twoFactorVerified` to `false` (rather than leaving
it unset), and redirects to enrollment — without checking the password
(the conclusion holds for every password verifier `pwVerify`). -/
theorem login_first_login_redirects_enrollment
    (pwVerify : String → String → Bool) (gen : String → Int → String) (t : Int)
    (db : List User) (s : Session) (form : List (String × String)) (u : User)
    (e p : String)
    (hs : cookieCheck s = "None")
    (he : lookupForm form "email" = some e) (he0 : e ≠ "")
    (hp : lookupForm form "password" = some p) (hp0 : p ≠ "")
    (hc : lookupForm form "2fa" = none ∨ lookupForm form "2fa" = some "")
    (hu : getUserByEmail db e = some u)
    (hotp : u.otpKey = "") :
    auth_login_post pwVerify gen t db s form =
      ({ s with id := some u.id, twoFA := some false }, LoginResult.redirect2fa) := by
  have hs' : (cookieCheck s == "Valid") = false := by rw [hs]; rfl
  have hfr : verifyForm form ["email", "password", "2fa"] =
      (false, "Missing field: 2fa", 2) := by
    rcases hc with hc | hc <;>
      (simp only [verifyForm, verifyFormGo, he, hp, hc, beq_iff_eq, he0, hp0,
        if_neg, if_pos, String.append_empty]; rfl)
  unfold auth_login_post
  simp only [hs', Bool.false_eq_true, if_false, hfr, Bool.not_false, bne_self_eq_false,
    Bool.and_false, he, Option.getD_some, hu, hotp, beq_self_eq_true, Bool.true_and,
    if_true]

/-- Witness for C6's amended theorem: concrete first login with the 2fa
field absent and an always-failing password verifier. -/
theorem login_first_login_redirects_enrollment_witness :
    auth_login_post (fun _ _ => false) (fun _ _ => "222222") 0
        [⟨1, "a@b.c", "HASH", "alice", 0, "", ""⟩] Session.empty
        [("email", "a@b.c"), ("password", "pw")] =
      (⟨some 1, some false, none⟩, LoginResult.redirect2fa) :=
  login_first_login_redirects_enrollment (fun _ _ => false) (fun _ _ => "222222") 0
    [⟨1, "a@b.c", "HASH", "alice", 0, "", ""⟩] Session.empty
    [("email", "a@b.c"), ("password", "pw")]
    ⟨1, "a@b.c", "HASH", "alice", 0, "", ""⟩ "a@b.c" "pw"
    rfl rfl (by decide) rfl (by decide) (Or.inl rfl) rfl rfl

/-- C7, evaluation at the failing input: for every registration POST where
all four fields are present and non-empty and password ≠ confirm-password,
the handler executes `del request.form["password"]` before its
`return renderTemplate(...)`; since Flask's `request.form` is a werkzeug
`ImmutableMultiDict` whose `__delitem__` raises, the mismatch surfaces as
an HTTP 500 `TypeError` — not as the re-rendered registration form
carrying `"Passwords do not match"` that the claim (and the code's own
`return` statement two lines below the `del`) intends. No user is
inserted and the session is unchanged. -/
theorem register_password_mismatch_raises
    (hashPw : String → String) (db : List User) (s : Session)
    (form : List (String × String)) (newId : Nat) (e p cp un : String)
    (hs : cookieCheck s = "None")
    (he : lookupForm form "email" = some e) (he0 : e ≠ "")
    (hp : lookupForm form "password" = some p) (hp0 : p ≠ "")
    (hcp : lookupForm form "confirm-password" = some cp) (hcp0 : cp ≠ "")
    (hun : lookupForm form "username" = some un) (hun0 : un ≠ "")
    (hne : p ≠ cp) :
    auth_register_post hashPw db s form newId =
      (db, s, RegisterResult.serverError
        "TypeError: ImmutableMultiDict objects are immutable") := by
  have hs' : (cookieCheck s == "Valid") = false := by rw [hs]; rfl
  have hfr : verifyForm form ["email", "password", "confirm-password", "username"] =
      (true, "", 0) := by
    simp only [verifyForm, verifyFormGo, he, hp, hcp, hun, beq_iff_eq, he0, hp0,
      hcp0, hun0, if_neg]
    rfl
  unfold auth_register_post
  simp only [hs', Bool.false_eq_true, if_false, hfr, Bool.not_true, hp, hcp,
    Option.getD_some, bne_iff_ne, ne_eq, hne, not_false_eq_true, if_true]

/-- Witness for C7's evaluation theorem: concrete mismatching registration
POST ends in the `TypeError` server error with the store unchanged. -/
theorem register_password_mismatch_raises_witness :
    auth_register_post (fun p => "H" ++ p) [] Session.empty
        [("email", "a@b.c"), ("password", "pw1"), ("confirm-password", "pw2"),
         ("username", "alice")] 7 =
      ([], Session.empty, RegisterResult.serverError
        "TypeError: ImmutableMultiDict objects are immutable") :=
  register_password_mismatch_raises (fun p => "H" ++ p) [] Session.empty
    [("email", "a@b.c"), ("password", "pw1"), ("confirm-password", "pw2"),
     ("username", "alice")] 7 "a@b.c" "pw1" "pw2" "alice"
    rfl rfl (by decide) rfl (by decide) rfl (by decide) rfl (by decide) (by decide)

/-- C8 counterexample: the login flow calls `user.otp.verify(code)` with
pyotp's default `valid_window=0`, not `±1`. Here the submitted code is the
generated code of the adjacent time step `t - 1` (so it verifies under a
`±1`-step window) and differs from `lastOtp`, the password is correct and
the user is not banned — yet login rejects with `Invalid 2FA` instead of
succeeding as the claim states. -/
theorem login_adjacent_step_code_counterexample :
    totpVerify (fun _ i => if i == 4 then "111111" else "222222") "SECRET"
      "111111" 5 1 = true ∧
    totpVerify (fun _ i => if i == 4 then "111111" else "222222") "SECRET"
      "111111" 5 0 = false ∧
    auth_login_post (fun p h => p == h) (fun _ i => if i == 4 then "111111" else "222222")
        5 [⟨1, "a@b.c", "pw", "alice", 0, "SECRET", "999999"⟩] Session.empty
        [("email", "a@b.c"), ("password", "pw"), ("2fa", "111111")] =
      (Session.empty, LoginResult.render (some "Invalid 2FA")) := by
  decide

/-- C8 (amended): login's one-time-code check uses a tolerance window of
zero steps (pyotp's default), not `±1`: under correct password, non-banned
user and configured `otpKey`, the login succeeds iff the submitted code is
the generated code of the *current* time step and differs from `lastOtp`;
otherwise it rejects with `Invalid 2FA` leaving the session unchanged. -/
theorem login_otp_window_zero
    (pwVerify : String → String → Bool) (gen : String → Int → String) (t : Int)
    (db : List User) (s : Session) (form : List (String × String)) (u : User)
    (e p code : String)
    (hs : cookieCheck s = "None")
    (he : lookupForm form "email" = some e) (he0 : e ≠ "")
    (hp : lookupForm form "password" = some p) (hp0 : p ≠ "")
    (hc : lookupForm form "2fa" = some code) (hc0 : code ≠ "")
    (hu : getUserByEmail db e = some u)
    (hotp : u.otpKey ≠ "")
    (hpw : pwVerify p u.password = true)
    (hban : u.banned = false) :
    auth_login_post pwVerify gen t db s form =
      (if gen u.otpKey t == code && u.lastOtp != code then
        ({ s with id := some u.id, twoFA := some true }, LoginResult.redirectIndex)
       else (s, LoginResult.render (some "Invalid 2FA"))) := by
  have hs' : (cookieCheck s == "Valid") = false := by rw [hs]; rfl
  have hotp' : (u.otpKey == "") = false := beq_eq_false_iff_ne.mpr hotp
  have hw : totpVerify gen u.otpKey code t 0 = (gen u.otpKey t == code) := by
    have hr1 : List.range 1 = [0] := rfl
    simp [totpVerify, hr1]
  unfold auth_login_post
  simp only [hs', Bool.false_eq_true, if_false, verifyForm, verifyFormGo, he, hp, hc,
    beq_iff_eq, he0, hp0, hc0, if_neg, hu, hotp', Bool.false_and, hpw, hban,
    Bool.not_true, Option.getD_some, hw, if_true]
  by_cases hgen : (gen u.otpKey t == code) = true
  · by_cases hl : (u.lastOtp == code) = true
    · simp [hgen, hl, eq_of_beq hl]
    · rw [Bool.not_eq_true] at hl
      simp [hgen, hl, ne_of_beq_false hl]
  · rw [Bool.not_eq_true] at hgen
    simp [hgen]

/-- Witness for C8's amended theorem: with a code valid at the current
step and distinct from `lastOtp`, login succeeds. -/
theorem login_otp_window_zero_witness :
    auth_login_post (fun p h => p == h) (fun _ _ => "222222") 5
        [⟨1, "a@b.c", "pw", "alice", 0, "SECRET", "999999"⟩] Session.empty
        [("email", "a@b.c"), ("password", "pw"), ("2fa", "222222")] =
      (⟨some 1, some true, none⟩, LoginResult.redirectIndex) :=
  (login_otp_window_zero (fun p h => p == h) (fun _ _ => "222222") 5
    [⟨1, "a@b.c", "pw", "alice", 0, "SECRET", "999999"⟩] Session.empty
    [("email", "a@b.c"), ("password", "pw"), ("2fa", "222222")]
    ⟨1, "a@b.c", "pw", "alice", 0, "SECRET", "999999"⟩ "a@b.c" "pw" "222222"
    rfl rfl (by decide) rfl (by decide) rfl (by decide) rfl (by decide) rfl
    rfl).trans (by decide)

/-- C1, evaluation at the failing input: with `app.debug = False`, the
enrollment POST guard
`(not verify(code, valid_window=1)) and (app.debug and code != "123456")`
is false for *every* submitted code, because its second conjunct is false.
Here the submitted code `"000000"` fails TOTP verification against the
session's pending key `"K"` even with the `±1`-step window, yet the
handler persists `"K"` as the user's `otpKey`, sets `session["2fa"]` to
`True`, pops the pending key and redirects home — instead of rejecting
with `Invalid 2FA`, leaving the user record and `pendingOtpKey` unchanged
as the claim (and the code's evident intent of a `"123456"` debug-only
bypass) requires. With `app.debug = True` the same input *is* rejected. -/
theorem add_2fa_accepts_failing_code_when_not_debug :
    totpVerify (fun _ _ => "222222") "K" "000000" 5 1 = false ∧
    auth_add_2fa_post (fun _ _ => "222222") 5 false
        [⟨1, "a@b.c", "HASH", "alice", 0, "", ""⟩]
        ⟨some 1, some false, some "K"⟩ [("2fa", "000000")] =
      ([⟨1, "a@b.c", "HASH", "alice", 0, "K", ""⟩],
       ⟨some 1, some true, none⟩, TfaResult.redirectIndex) ∧
    auth_add_2fa_post (fun _ _ => "222222") 5 true
        [⟨1, "a@b.c", "HASH", "alice", 0, "", ""⟩]
        ⟨some 1, some false, some "K"⟩ [("2fa", "000000")] =
      ([⟨1, "a@b.c", "HASH", "alice", 0, "", ""⟩],
       ⟨some 1, some false, some "K"⟩, TfaResult.render (some "Invalid 2FA")) := by
  decide

/-- C9 counterexample: a password-reset POST for an existing user persists
the freshly generated code as the user's `lastOtp`, but the outbound-email
collaborator is *not* invoked: the call
`emailer.sendVerificationEmail(user.email, code)` is commented out in the
source (and no `emailer` instance is even constructed in `app.py`), so
the invoked-flag component of the result is `false`, contradicting the
claim that email delivery is invoked. -/
theorem password_reset_email_not_invoked_counterexample :
    auth_password_reset_post [⟨1, "a@b.c", "HASH", "alice", 0, "SECRET", "OLD"⟩]
        Session.empty [("email", "a@b.c")] "NEWCODE" =
      ([⟨1, "a@b.c", "HASH", "alice", 0, "SECRET", "NEWCODE"⟩], false,
       ResetResult.noResponse) ∧
    (auth_password_reset_post [⟨1, "a@b.c", "HASH", "alice", 0, "SECRET", "OLD"⟩]
        Session.empty [("email", "a@b.c")] "NEWCODE").2.1 = false := by
  decide

/-- C9 (amended): for every password-reset POST with an email belonging to
an existing user, the flow persists the generated code as that user's
`lastOtp` (any user subsequently fetched under that id carries the new
code), but does not invoke the outbound-email collaborator (the send call
is commented out), and the handler falls through without a response. -/
theorem password_reset_persists_code
    (db : List User) (s : Session) (form : List (String × String))
    (code : String) (u : User) (e : String)
    (hs : cookieCheck s = "None")
    (he : lookupForm form "email" = some e) (he0 : e ≠ "")
    (hu : getUserByEmail db e = some u) :
    auth_password_reset_post db s form code =
      (setUserLastOtp db u.id code, false, ResetResult.noResponse) ∧
    ∀ v, getUser (setUserLastOtp db u.id code) u.id = some v →
      v.lastOtp = code := by
  have hs' : (cookieCheck s == "Valid") = false := by rw [hs]; rfl
  constructor
  · unfold auth_password_reset_post
    simp only [hs', Bool.false_eq_true, if_false, verifyForm, verifyFormGo, he,
      beq_iff_eq, he0, if_neg, hu, Option.getD_some, Bool.not_true]
  · intro v hv
    unfold getUser setUserLastOtp at hv
    have hpred := List.find?_some hv
    have hmem := List.mem_of_find?_eq_some hv
    rcases List.mem_map.mp hmem with ⟨w, _, hw⟩
    by_cases hwid : (w.id == u.id) = true
    · rw [if_pos hwid] at hw
      rw [← hw]
    · rw [Bool.not_eq_true] at hwid
      rw [if_neg (by simp [hwid])] at hw
      subst hw
      rw [hpred] at hwid
      cases hwid

/-- Witness for C9's amended theorem at a concrete store. -/
theorem password_reset_persists_code_witness :
    auth_password_reset_post [⟨1, "a@b.c", "HASH", "alice", 0, "SECRET", "OLD"⟩]
        Session.empty [("email", "a@b.c")] "NEWCODE" =
      (setUserLastOtp [⟨1, "a@b.c", "HASH", "alice", 0, "SECRET", "OLD"⟩] 1 "NEWCODE",
       false, ResetResult.noResponse) :=
  (password_reset_persists_code [⟨1, "a@b.c", "HASH", "alice", 0, "SECRET", "OLD"⟩]
    Session.empty [("email", "a@b.c")] "NEWCODE"
    ⟨1, "a@b.c", "HASH", "alice", 0, "SECRET", "OLD"⟩ "a@b.c"
    rfl rfl (by decide) rfl).1

/-- C10: `getFileByToken` subscripts the absent query row (`result[3]`)
before its trailing `if result else None` guard, so the file route's
"File not found" branch is dead code: `_files_get` never produces
`renderNotFound` on any input, and a request with a valid session for a
token with no matching file row ends in the lookup's `TypeError`
(surfaced as a server error), not in the not-found page. -/
theorem files_get_not_found_unreachable
    (db : List User) (files : List FileRow) (small large : List (Nat × String))
    (s : Session) (token : String) :
    files_get db files small large s token ≠ FilesGetResult.renderNotFound ∧
    (files.find? (fun r => r.token == token) = none → cookieCheck s = "Valid" →
      files_get db files small large s token =
        FilesGetResult.serverError "TypeError: NoneType object is not subscriptable") := by
  constructor
  · unfold files_get
    by_cases hck : (cookieCheck s == "None") = true
    · simp [hck]
    · rw [Bool.not_eq_true] at hck
      simp only [hck, Bool.false_eq_true, if_false]
      unfold getFileByToken
      rcases h1 : files.find? (fun r => r.token == token) with _ | row
      · simp [h1]
      · simp only [h1]
        rcases h2 : (if row.sizeFlag == 1 then small else large).find?
            (fun d => d.1 == row.id) with _ | d <;>
          (simp only [h2]; exact fun h => nomatch h)
  · intro hfind hck
    have hck' : (cookieCheck s == "None") = false := by rw [hck]; rfl
    unfold files_get getFileByToken
    simp only [hck', Bool.false_eq_true, if_false, hfind]

/-- Witness for C10 at a concrete input: empty `files` table, logged-in
session, unknown token → server error, not the not-found page. -/
theorem files_get_not_found_unreachable_witness :
    files_get [] [] [] [] ⟨some 1, some true, none⟩ "tok" =
      FilesGetResult.serverError "TypeError: NoneType object is not subscriptable" :=
  (files_get_not_found_unreachable [] [] [] [] ⟨some 1, some true, none⟩ "tok").2
    rfl rfl

/-- C4: for every login POST (anonymous session) resolving to a user with
a configured `otpKey`, the handler writes to the session only on full
success: whenever the response is not the success redirect (missing
field, invalid password, banned, invalid or replayed one-time code, or
the 400 on a missing `2fa` field), the session is returned unchanged —
in particular `id` is never set — and when the response is the success
redirect, the session carries exactly `id = user.id` and
`twoFactorVerified = true`. -/
theorem login_commits_session_only_on_success
    (pwVerify : String → String → Bool) (gen : String → Int → String) (t : Int)
    (db : List User) (s : Session) (form : List (String × String)) (u : User)
    (hs : cookieCheck s = "None")
    (hu : getUserByEmail db ((lookupForm form "email").getD "") = some u)
    (hotp : u.otpKey ≠ "") :
    ((auth_login_post pwVerify gen t db s form).2 ≠ LoginResult.redirectIndex →
      (auth_login_post pwVerify gen t db s form).1 = s) ∧
    ((auth_login_post pwVerify gen t db s form).2 = LoginResult.redirectIndex →
      (auth_login_post pwVerify gen t db s form).1 =
        { s with id := some u.id, twoFA := some true }) := by
  have hs' : (cookieCheck s == "Valid") = false := by rw [hs]; rfl
  have hotp' : (u.otpKey == "") = false := beq_eq_false_iff_ne.mpr hotp
  have key : (auth_login_post pwVerify gen t db s form =
      ({ s with id := some u.id, twoFA := some true }, LoginResult.redirectIndex)) ∨
      ((auth_login_post pwVerify gen t db s form).1 = s ∧
       (auth_login_post pwVerify gen t db s form).2 ≠ LoginResult.redirectIndex) := by
    unfold auth_login_post
    simp only [hs', Bool.false_eq_true, if_false, hu, hotp', Bool.false_and]
    split
    · right; simp
    · split
      · right; simp
      · split
        · right; simp
        · split
          · right; simp
          · split
            · right; simp
            · left; rfl
  rcases key with h | ⟨h1, h2⟩
  · constructor
    · intro hne
      rw [h] at hne
      exact absurd rfl hne
    · intro _
      rw [h]
  · exact ⟨fun _ => h1, fun hr => absurd hr h2⟩

/-- Witness for C4: correct email, wrong password, otherwise valid code →
the response is not the success redirect and the session stays empty. -/
theorem login_commits_session_only_on_success_witness :
    (auth_login_post (fun p h => p == h) (fun _ _ => "222222") 5
      [⟨1, "a@b.c", "pw", "alice", 0, "SECRET", "999999"⟩] Session.empty
      [("email", "a@b.c"), ("password", "WRONG"), ("2fa", "222222")]).1 =
      Session.empty :=
  (login_commits_session_only_on_success (fun p h => p == h) (fun _ _ => "222222") 5
    [⟨1, "a@b.c", "pw", "alice", 0, "SECRET", "999999"⟩] Session.empty
    [("email", "a@b.c"), ("password", "WRONG"), ("2fa", "222222")]
    ⟨1, "a@b.c", "pw", "alice", 0, "SECRET", "999999"⟩
    rfl rfl (by decide)).1 (by decide)

end Filehost
